import Mathlib

/-!
Verification development for the session-scoped streaming chat relay
(`app.py`).  The stateful Flask code is shallowly embedded: the global
`session_histories` dict becomes an association list `Store`, each route
handler becomes a pure function from its inputs and the current store to
its outputs and the next store, and the streaming generator becomes a
function from the request payload, the collaborator's behaviour (the list
of deltas plus whether the stream raised) and the store to the emitted
event list, the next store and the message list handed to the LLM.
-/

namespace Chatbot

/-- Message roles, mirroring `MessageRole.SYSTEM / USER / ASSISTANT`. -/
inductive Role
  | system
  | user
  | assistant
deriving DecidableEq, Repr

/-- One history entry: the dict `{"role": ..., "content": ...}`. -/
structure Message where
  role : Role
  content : String
deriving DecidableEq, Repr

/-- A session transcript: the list stored under one session id. -/
abbrev Transcript := List Message

/-- The `session_histories` dict, as an association list with unique keys. -/
abbrev Store := List (String × Transcript)

/-- Dict lookup `session_histories.get(sid)`. -/
def Store.get (st : Store) (k : String) : Option Transcript :=
  match st with
  | [] => none
  | (k₂, v) :: rest => if k₂ = k then some v else Store.get rest k

/-- Dict write `session_histories[sid] = v` (replace if present, else add). -/
def Store.set (st : Store) (k : String) (v : Transcript) : Store :=
  match st with
  | [] => [(k, v)]
  | (k₂, v₂) :: rest => if k₂ = k then (k, v) :: rest else (k₂, v₂) :: Store.set rest k v

/-- Python `str.strip()` whitespace test (space, tab, newline, CR, VT, FF). -/
def isPySpace (c : Char) : Bool :=
  c == ' ' || c == '\t' || c == '\n' || c == '\r' || c.toNat == 11 || c.toNat == 12

/-- Python `s.strip()`: drop leading and trailing whitespace. -/
def pyStrip (s : String) : String :=
  String.mk (((s.data.dropWhile isPySpace).reverse.dropWhile isPySpace).reverse)

/-- One SSE-framed event `data: {...}` yielded by the generator. -/
inductive StreamEvent
  | chunk (text : String)
  | final (full_response : String)
  | error (message : String)
deriving DecidableEq, Repr

/-- The `is_final` flag carried by the event's JSON payload. -/
def StreamEvent.isFinal : StreamEvent → Bool
  | .chunk _ => false
  | .final _ => true
  | .error _ => true

/-- The `text_chunk` field of a non-final event, if any. -/
def chunkText : StreamEvent → Option String
  | .chunk t => some t
  | _ => none

/-- The JSON body of a `/chat` request (fields the core reads). -/
structure ChatPayload where
  session_id : Option String
  prompt : Option String
  system_prompt : Option String
deriving DecidableEq, Repr

/-- Behaviour of the external collaborator's `stream_chat` iterator:
either it yields `deltas` and exhausts normally, or it yields `deltas`
and then raises an exception rendered as `errMsg`. -/
inductive StreamOutcome
  | success (deltas : List String)
  | failure (deltas : List String) (errMsg : String)
deriving DecidableEq, Repr

/-- The deltas the collaborator produced before terminating either way. -/
def outcomeDeltas : StreamOutcome → List String
  | .success ds => ds
  | .failure ds _ => ds

/-- Events yielded inside the `for r_chunk in stream_resp` loop: one chunk
event per truthy delta (`if delta_content:` skips empty deltas). -/
def deltaEvents (ds : List String) : List StreamEvent :=
  (ds.filter (fun d => d != "")).map StreamEvent.chunk

/-- `full_response_content`: the fold `full += delta` guarded by
`if delta_content:`. -/
def deltaConcat (ds : List String) : String :=
  ds.foldl (fun acc d => if d != "" then acc ++ d else acc) ""

/-- Plain concatenation of all deltas in order. -/
def concatAll (ds : List String) : String :=
  ds.foldl (fun acc d => acc ++ d) ""

/-- `initialize_session_history`: insert an empty transcript if absent. -/
def init_session_history (sid : String) (st : Store) : Store :=
  match st.get sid with
  | some _ => st
  | none => st.set sid []

/-- `/create-session`: a fresh id (passed in, standing for `uuid4()`) is
initialized with an empty transcript. -/
def create_session_route (sid : String) (st : Store) : Store :=
  init_session_history sid st

/-- Outcome of `/clear-backend-history`: 400, or 200 with a message. -/
inductive ClearResult
  | badRequest
  | cleared (message : String)
deriving DecidableEq, Repr

/-- Whether the clear route answered `{status: success}`. -/
def ClearResult.isSuccess : ClearResult → Bool
  | .badRequest => false
  | .cleared _ => true

/-- `clear_backend_history_route`: 400 when `session_id` is falsy, else
reset the transcript to `[]` (initializing the session when unknown). -/
def clear_backend_history_route (sid? : Option String) (st : Store) : Store × ClearResult :=
  if sid?.getD "" = "" then (st, ClearResult.badRequest)
  else
    match st.get (sid?.getD "") with
    | some _ =>
        (st.set (sid?.getD "") [],
         ClearResult.cleared "Backend chat history cleared for this session.")
    | none =>
        (init_session_history (sid?.getD "") st,
         ClearResult.cleared
           "Backend session history was not found (or was new) and is now initialized empty.")

/-- The system-prompt handling inside the snapshot critical section
(lines 100-106): returns the initial `messages_for_llm` and the resulting
`current_history_dicts`.  `list(...)` is a shallow copy, so the in-place
content write on the head dict in the changed branch also mutates the
stored transcript; the second component is exactly that shared list. -/
def systemPhase (sysText : String) (hist : Transcript) : List Message × Transcript :=
  if sysText = "" then ([], hist)
  else
    match hist with
    | [] => ([⟨Role.system, sysText⟩], [])
    | m :: rest =>
      if m.role != Role.system then ([⟨Role.system, sysText⟩], m :: rest)
      else if m.content != sysText then
        ([⟨Role.system, sysText⟩], { m with content := sysText } :: rest)
      else ([], m :: rest)

/-- Head-of-list test `messages_for_llm and messages_for_llm[0].role == SYSTEM`. -/
def headIsSystem (l : List Message) : Bool :=
  match l with
  | [] => false
  | a :: _ => a.role == Role.system

/-- The `for msg_dict in current_history_dicts` loop (lines 110-114):
append each stored message to the accumulating `messages_for_llm`,
skipping a system message when the accumulator already starts with one. -/
def historyLoop (acc : List Message) (hist : Transcript) : List Message :=
  match hist with
  | [] => acc
  | m :: rest =>
    if m.role == Role.system && !acc.isEmpty && headIsSystem acc then
      historyLoop acc rest
    else
      historyLoop (acc ++ [m]) rest

/-- The system-message upsert in the commit critical section
(lines 138-142): insert at position 0 when the transcript is empty or its
head is not a system message; replace the head content when it differs. -/
def upsertSystem (sysText : String) (h : Transcript) : Transcript :=
  if sysText = "" then h
  else
    match h with
    | [] => [⟨Role.system, sysText⟩]
    | m :: rest =>
      if m.role != Role.system then ⟨Role.system, sysText⟩ :: m :: rest
      else if m.content != sysText then { m with content := sysText } :: rest
      else m :: rest

/-- The whole commit performed after a successful stream (lines 138-146):
system upsert, then append the user message, then the assistant message. -/
def commit_exchange (sysText userText assistantText : String) (h : Transcript) : Transcript :=
  upsertSystem sysText h ++ [⟨Role.user, userText⟩, ⟨Role.assistant, assistantText⟩]

/-- Everything one run of the generator produces: the yielded events, the
store after the run, and the message list passed to `llm.stream_chat`
(`none` when validation stopped the run before any LLM call). -/
structure ChatResult where
  events : List StreamEvent
  store : Store
  sentToLLM : Option (List Message)
deriving DecidableEq, Repr

/-- `generate_chat_stream_with_session(payload)`.  `apiKey` is the
`GROQ_API_KEY` environment variable; `outcome` is the behaviour of the
external collaborator's stream for this call. -/
def generate_chat_stream_with_session (apiKey : Option String) (p : ChatPayload)
    (outcome : StreamOutcome) (st : Store) : ChatResult :=
  let system_prompt_text := pyStrip (p.system_prompt.getD "")
  if p.session_id.getD "" = "" then
    ⟨[StreamEvent.error "session_id is required for backend history"], st, none⟩
  else if p.prompt.getD "" = "" then
    ⟨[StreamEvent.error "Prompt is required"], st, none⟩
  else if apiKey.getD "" = "" then
    ⟨[StreamEvent.error "GROQ_API_KEY not configured on server."], st, none⟩
  else
    let sid := p.session_id.getD ""
    let user_prompt_text := p.prompt.getD ""
    let current_history := (st.get sid).getD []
    let phase := systemPhase system_prompt_text current_history
    let st₁ := if (st.get sid).isSome then st.set sid phase.2 else st
    let messages_for_llm := historyLoop phase.1 phase.2 ++ [⟨Role.user, user_prompt_text⟩]
    match outcome with
    | .failure ds msg =>
        ⟨deltaEvents ds ++ [StreamEvent.error ("LLM Error: " ++ msg)], st₁,
         some messages_for_llm⟩
    | .success ds =>
        let full := deltaConcat ds
        let st₂ := init_session_history sid st₁
        ⟨deltaEvents ds ++ [StreamEvent.final full],
         st₂.set sid (commit_exchange system_prompt_text user_prompt_text full
           ((st₂.get sid).getD [])),
         some messages_for_llm⟩

/-- `/chat` route: make sure the session exists when `session_id` is
truthy, then stream the generator's events. -/
def chat_route_post (apiKey : Option String) (p : ChatPayload)
    (outcome : StreamOutcome) (st : Store) : ChatResult :=
  let st₀ := if p.session_id.getD "" != "" then init_session_history (p.session_id.getD "") st else st
  generate_chat_stream_with_session apiKey p outcome st₀

/-- Transcript invariant: every message after the first has a non-system
role, hence at most one system message, necessarily at position 0. -/
def transcriptOK (h : Transcript) : Prop :=
  ∀ m ∈ h.tail, m.role ≠ Role.system

instance (h : Transcript) : Decidable (transcriptOK h) := by
  unfold transcriptOK; infer_instance

/-- Store invariant: every stored transcript satisfies `transcriptOK`. -/
def storeOK (st : Store) : Prop :=
  ∀ kv ∈ st, transcriptOK kv.2

/-- Number of system messages in a message list. -/
def systemCount (l : List Message) : Nat :=
  (l.filter (fun m => m.role == Role.system)).length

/-- Stores reachable from the empty initial store through the HTTP
surface: create-session, defensive initialization, clear, and chat. -/
inductive Reachable : Store → Prop
  | empty : Reachable []
  | create (sid : String) (st : Store) :
      Reachable st → Reachable (create_session_route sid st)
  | ensure (sid : String) (st : Store) :
      Reachable st → Reachable (init_session_history sid st)
  | clear (sid? : Option String) (st : Store) :
      Reachable st → Reachable (clear_backend_history_route sid? st).1
  | chat (apiKey : Option String) (p : ChatPayload) (o : StreamOutcome) (st : Store) :
      Reachable st → Reachable (chat_route_post apiKey p o st).store

/-! ### Store lemmas -/

theorem Store.get_set_self (st : Store) (k : String) (v : Transcript) :
    (st.set k v).get k = some v := by
  induction st with
  | nil => simp [Store.set, Store.get]
  | cons kv rest ih =>
    by_cases h : kv.1 = k
    · simp [Store.set, Store.get, h]
    · simp [Store.set, Store.get, h, ih]

theorem Store.get_set_ne (st : Store) (k k₂ : String) (v : Transcript) (h : k₂ ≠ k) :
    (st.set k v).get k₂ = st.get k₂ := by
  have hne : k ≠ k₂ := Ne.symm h
  induction st with
  | nil => simp [Store.set, Store.get, hne]
  | cons kv rest ih =>
    by_cases hk : kv.1 = k
    · simp only [Store.set, if_pos hk, Store.get, if_neg hne, hk]
    · simp only [Store.set, if_neg hk, Store.get]
      by_cases hk2 : kv.1 = k₂ <;> simp [hk2, ih]

theorem Store.set_get_eq (st : Store) (k : String) (v : Transcript)
    (h : st.get k = some v) : st.set k v = st := by
  induction st with
  | nil => simp [Store.get] at h
  | cons kv rest ih =>
    by_cases hk : kv.1 = k
    · simp only [Store.get, if_pos hk] at h
      cases kv with
      | mk k₂ v₂ =>
        simp only at hk
        subst hk
        simp only [Option.some.injEq] at h
        simp [Store.set, h]
    · simp only [Store.get, if_neg hk] at h
      simp [Store.set, hk, ih h]

theorem Store.set_set_self (st : Store) (k : String) (v w : Transcript) :
    (st.set k v).set k w = st.set k w := by
  induction st with
  | nil => simp [Store.set]
  | cons kv rest ih =>
    by_cases hk : kv.1 = k
    · simp [Store.set, hk]
    · simp [Store.set, hk, ih]

theorem Store.mem_set (st : Store) (k : String) (v : Transcript) (kv : String × Transcript)
    (h : kv ∈ st.set k v) : kv = (k, v) ∨ kv ∈ st := by
  induction st with
  | nil =>
    simp [Store.set] at h
    exact Or.inl h
  | cons kv₂ rest ih =>
    by_cases hk : kv₂.1 = k
    · simp only [Store.set, if_pos hk, List.mem_cons] at h
      rcases h with h | h
      · exact Or.inl h
      · exact Or.inr (List.mem_cons_of_mem _ h)
    · simp only [Store.set, if_neg hk, List.mem_cons] at h
      rcases h with h | h
      · exact Or.inr (by simp [h])
      · rcases ih h with h2 | h2
        · exact Or.inl h2
        · exact Or.inr (List.mem_cons_of_mem _ h2)

theorem Store.get_mem (st : Store) (k : String) (v : Transcript)
    (h : st.get k = some v) : (k, v) ∈ st := by
  induction st with
  | nil => simp [Store.get] at h
  | cons kv rest ih =>
    by_cases hk : kv.1 = k
    · simp only [Store.get, if_pos hk, Option.some.injEq] at h
      cases kv with
      | mk k₂ v₂ =>
        simp only at hk
        subst hk; subst h
        exact List.mem_cons_self _ _
    · simp only [Store.get, if_neg hk] at h
      exact List.mem_cons_of_mem _ (ih h)

theorem storeOK_set (st : Store) (k : String) (v : Transcript)
    (hst : storeOK st) (hv : transcriptOK v) : storeOK (st.set k v) := by
  intro kv hkv
  rcases Store.mem_set st k v kv hkv with h | h
  · subst h; exact hv
  · exact hst kv h

theorem storeOK_get (st : Store) (k : String) (v : Transcript)
    (hst : storeOK st) (h : st.get k = some v) : transcriptOK v :=
  hst (k, v) (Store.get_mem st k v h)

theorem transcriptOK_nil : transcriptOK [] := by
  intro m hm
  simp at hm

theorem init_session_history_get_self (sid : String) (st : Store) :
    ∃ h, (init_session_history sid st).get sid = some h ∧ (st.get sid = none → h = []) := by
  unfold init_session_history
  cases hg : st.get sid with
  | some v => exact ⟨v, hg, by simp⟩
  | none => exact ⟨[], Store.get_set_self st sid [], fun _ => rfl⟩

theorem init_session_history_of_some (sid : String) (st : Store) (v : Transcript)
    (h : st.get sid = some v) : init_session_history sid st = st := by
  unfold init_session_history
  rw [h]

theorem init_session_history_of_none (sid : String) (st : Store)
    (h : st.get sid = none) : init_session_history sid st = st.set sid [] := by
  unfold init_session_history
  rw [h]

theorem storeOK_init (sid : String) (st : Store) (hst : storeOK st) :
    storeOK (init_session_history sid st) := by
  unfold init_session_history
  cases hg : st.get sid with
  | some v => exact hst
  | none => exact storeOK_set st sid [] hst transcriptOK_nil

/-! ### Snapshot-phase and commit lemmas -/

theorem systemPhase_eq (s : String) (h : Transcript) :
    systemPhase s h =
      if s = "" then ([], h)
      else if headIsSystem h then
        (if h.head?.map Message.content = some s then ([], h)
         else ([⟨Role.system, s⟩], ⟨Role.system, s⟩ :: h.tail))
      else ([⟨Role.system, s⟩], h) := by
  unfold systemPhase
  by_cases hs : s = ""
  · simp [hs]
  · simp only [if_neg hs]
    cases h with
    | nil => simp [headIsSystem]
    | cons m rest =>
      by_cases hr : m.role = Role.system
      · by_cases hc : m.content = s
        · cases m with
          | mk r c =>
            simp only at hr hc
            subst hr; subst hc
            simp [headIsSystem]
        · cases m with
          | mk r c =>
            simp only at hr hc
            subst hr
            simp [headIsSystem, hc]
      · cases m with
        | mk r c =>
          simp only at hr
          simp [headIsSystem, hr, bne_iff_ne]

theorem systemPhase_snd_tail (s : String) (h : Transcript) :
    (systemPhase s h).2.tail = h.tail := by
  rw [systemPhase_eq]
  by_cases hs : s = ""
  · simp [hs]
  · by_cases hh : headIsSystem h
    · by_cases hc : h.head?.map Message.content = some s <;> simp [hs, hh, hc]
    · simp [hs, hh]

theorem systemPhase_snd_roles (s : String) (h : Transcript) :
    (systemPhase s h).2.map Message.role = h.map Message.role := by
  rw [systemPhase_eq]
  by_cases hs : s = ""
  · simp [hs]
  · by_cases hh : headIsSystem h
    · by_cases hc : h.head?.map Message.content = some s
      · simp [hs, hh, hc]
      · simp only [if_neg hs, if_pos hh, if_neg hc]
        cases h with
        | nil => simp [headIsSystem] at hh
        | cons m rest =>
          simp only [headIsSystem, beq_iff_eq] at hh
          simp [hh]
    · simp [hs, hh]

theorem transcriptOK_systemPhase (s : String) (h : Transcript) (hOK : transcriptOK h) :
    transcriptOK (systemPhase s h).2 := by
  intro m hm
  rw [systemPhase_snd_tail] at hm
  exact hOK m hm

theorem upsertSystem_eq (s : String) (h : Transcript) :
    upsertSystem s h =
      if s = "" then h
      else if headIsSystem h then ⟨Role.system, s⟩ :: h.tail
      else ⟨Role.system, s⟩ :: h := by
  unfold upsertSystem
  by_cases hs : s = ""
  · simp [hs]
  · simp only [if_neg hs]
    cases h with
    | nil => simp [headIsSystem]
    | cons m rest =>
      by_cases hr : m.role = Role.system
      · by_cases hc : m.content = s
        · cases m with
          | mk r c =>
            simp only at hr hc
            subst hr; subst hc
            simp [headIsSystem]
        · cases m with
          | mk r c =>
            simp only at hr hc
            subst hr
            simp [headIsSystem, hc]
      · cases m with
        | mk r c =>
          simp only at hr
          simp [headIsSystem, hr, bne_iff_ne]

theorem transcriptOK_upsertSystem (s : String) (h : Transcript) (hOK : transcriptOK h) :
    transcriptOK (upsertSystem s h) := by
  rw [upsertSystem_eq]
  by_cases hs : s = ""
  · simpa [hs] using hOK
  · by_cases hh : headIsSystem h
    · simp only [if_neg hs, if_pos hh]
      intro m hm
      exact hOK m (by simpa using hm)
    · simp only [if_neg hs, if_neg hh]
      intro m hm
      simp only [List.tail_cons] at hm
      cases h with
      | nil => simp at hm
      | cons m₂ rest =>
        rcases List.mem_cons.1 hm with h2 | h2
        · subst h2
          simp only [headIsSystem, beq_iff_eq] at hh
          exact hh
        · exact hOK m h2

theorem transcriptOK_append (h l : Transcript) (hOK : transcriptOK h)
    (hl : ∀ m ∈ l, m.role ≠ Role.system) : transcriptOK (h ++ l) := by
  cases h with
  | nil =>
    intro m hm
    exact hl m (List.mem_of_mem_tail (by simpa using hm))
  | cons m₂ rest =>
    intro m hm
    simp only [List.cons_append, List.tail_cons, List.mem_append] at hm
    rcases hm with hm | hm
    · exact hOK m (by simpa using hm)
    · exact hl m hm

theorem transcriptOK_commit (s u a : String) (h : Transcript) (hOK : transcriptOK h) :
    transcriptOK (commit_exchange s u a h) := by
  unfold commit_exchange
  refine transcriptOK_append _ _ (transcriptOK_upsertSystem s h hOK) ?_
  intro m hm
  rcases List.mem_cons.1 hm with h2 | h2
  · subst h2; simp
  · rcases List.mem_cons.1 h2 with h3 | h3
    · subst h3; simp
    · simp at h3

/-! ### History-loop lemmas -/

theorem headIsSystem_append (acc : List Message) (l : List Message) (hne : acc ≠ []) :
    headIsSystem (acc ++ l) = headIsSystem acc := by
  cases acc with
  | nil => exact absurd rfl hne
  | cons a rest => simp [headIsSystem]

theorem historyLoop_head_system (l : Transcript) (acc : List Message)
    (ha : headIsSystem acc = true) :
    historyLoop acc l = acc ++ l.filter (fun m => m.role != Role.system) := by
  induction l generalizing acc with
  | nil => simp [historyLoop]
  | cons m rest ih =>
    have hne : acc ≠ [] := by
      intro hh
      rw [hh] at ha
      simp [headIsSystem] at ha
    by_cases hr : m.role = Role.system
    · have hc : (m.role == Role.system && !acc.isEmpty && headIsSystem acc) = true := by
        simp [hr, ha, List.isEmpty_iff, hne]
      simp only [historyLoop, hc, if_true]
      rw [ih acc ha, List.filter_cons, if_neg (by simp [hr])]
    · have hc : (m.role == Role.system && !acc.isEmpty && headIsSystem acc) = false := by
        simp [hr]
      simp only [historyLoop, hc]
      rw [if_neg (by simp)]
      rw [ih (acc ++ [m]) (by rw [headIsSystem_append acc [m] hne]; exact ha)]
      rw [List.filter_cons, if_pos (by simp [bne_iff_ne, hr])]
      simp

theorem historyLoop_head_not_system (l : Transcript) (acc : List Message)
    (hne : acc ≠ []) (ha : headIsSystem acc = false) :
    historyLoop acc l = acc ++ l := by
  induction l generalizing acc with
  | nil => simp [historyLoop]
  | cons m rest ih =>
    have : (m.role == Role.system && !acc.isEmpty && headIsSystem acc) = false := by
      simp [ha]
    simp only [historyLoop, this, if_false]
    rw [ih (acc ++ [m]) (by simp) (by rw [headIsSystem_append acc [m] hne]; exact ha)]
    simp

theorem filter_of_no_system (l : Transcript) (h : ∀ m ∈ l, m.role ≠ Role.system) :
    l.filter (fun m => m.role != Role.system) = l := by
  induction l with
  | nil => rfl
  | cons m rest ih =>
    have hm : m.role ≠ Role.system := h m (List.mem_cons_self _ _)
    rw [List.filter_cons, if_pos (by simp [bne_iff_ne, hm])]
    rw [ih fun x hx => h x (List.mem_cons_of_mem _ hx)]

theorem historyLoop_nil_acc (l : Transcript) (hOK : transcriptOK l) :
    historyLoop [] l = l := by
  cases l with
  | nil => rfl
  | cons m rest =>
    have hc : (m.role == Role.system && !(List.isEmpty ([] : List Message)) &&
        headIsSystem []) = false := by
      simp [headIsSystem]
    simp only [historyLoop, hc]
    rw [if_neg (by simp), List.nil_append]
    by_cases hr : m.role = Role.system
    · rw [historyLoop_head_system rest [m] (by simp [headIsSystem, hr])]
      rw [filter_of_no_system rest (by simpa [transcriptOK] using hOK)]
      simp
    · rw [historyLoop_head_not_system rest [m] (by simp) (by simp [headIsSystem, hr])]
      simp

/-! ### Delta lemmas -/

theorem string_append_empty (s : String) : s ++ "" = s := by
  cases s with
  | mk data => show String.mk (data ++ []) = String.mk data; rw [List.append_nil]

theorem string_empty_append (s : String) : "" ++ s = s := by
  cases s with
  | mk data => rfl

theorem string_append_assoc (a b c : String) : a ++ b ++ c = a ++ (b ++ c) := by
  cases a with
  | mk da =>
    cases b with
    | mk db =>
      cases c with
      | mk dc =>
        show String.mk (da ++ db ++ dc) = String.mk (da ++ (db ++ dc))
        rw [List.append_assoc]

theorem concatAll_cons (d : String) (ds : List String) :
    concatAll (d :: ds) = d ++ concatAll ds := by
  have aux : ∀ (l : List String) (acc : String),
      l.foldl (fun a x => a ++ x) acc = acc ++ concatAll l := by
    intro l
    induction l with
    | nil => intro acc; simp [concatAll, List.foldl, string_append_empty]
    | cons x rest ih =>
      intro acc
      simp only [concatAll, List.foldl]
      rw [ih (acc ++ x), ih ("" ++ x), string_empty_append, string_append_assoc]
  simp only [concatAll, List.foldl]
  rw [aux ds ("" ++ d), string_empty_append]
  rfl

theorem deltaConcat_eq_concatAll (ds : List String) : deltaConcat ds = concatAll ds := by
  have aux : ∀ (l : List String) (acc : String),
      l.foldl (fun a d => if d != "" then a ++ d else a) acc = acc ++ concatAll l := by
    intro l
    induction l with
    | nil => intro acc; simp [concatAll, List.foldl, string_append_empty]
    | cons x rest ih =>
      intro acc
      simp only [List.foldl]
      by_cases hx : x = ""
      · rw [if_neg (by simp [hx]), ih acc, concatAll_cons, hx, string_empty_append]
      · rw [if_pos (by simp [hx]), ih (acc ++ x), concatAll_cons, string_append_assoc]
  simp only [deltaConcat]
  rw [aux ds "", string_empty_append]

theorem deltaEvents_no_final (ds : List String) :
    ∀ e ∈ deltaEvents ds, e.isFinal = false := by
  intro e he
  unfold deltaEvents at he
  rcases List.mem_map.1 he with ⟨d, _, rfl⟩
  rfl

theorem deltaEvents_chunkTexts (ds : List String) :
    (deltaEvents ds).filterMap chunkText = ds.filter (fun d => d != "") := by
  unfold deltaEvents
  rw [List.filterMap_map]
  have hcomp : (chunkText ∘ StreamEvent.chunk) = some := by
    funext t
    rfl
  rw [hcomp, List.filterMap_some]

/-! ### Named views of one valid generator run -/

/-- The store as it stands right after the snapshot critical section: when
the session is present, the aliased in-place system-content write of
`systemPhase` is already visible in it. -/
def snapshotStore (sysText sid : String) (st : Store) : Store :=
  if (st.get sid).isSome then st.set sid (systemPhase sysText ((st.get sid).getD [])).2
  else st

/-- The `messages_for_llm` list handed to `llm.stream_chat`. -/
def outgoingMessages (sysText sid prompt : String) (st : Store) : List Message :=
  historyLoop (systemPhase sysText ((st.get sid).getD [])).1
    (systemPhase sysText ((st.get sid).getD [])).2 ++ [⟨Role.user, prompt⟩]

/-- The store after the commit critical section of a successful stream. -/
def successStore (sysText sid prompt full : String) (st : Store) : Store :=
  (init_session_history sid (snapshotStore sysText sid st)).set sid
    (commit_exchange sysText prompt full
      (((init_session_history sid (snapshotStore sysText sid st)).get sid).getD []))

theorem gen_valid_run (key sid prompt : String) (sp : Option String)
    (o : StreamOutcome) (st : Store)
    (hsid : sid ≠ "") (hp : prompt ≠ "") (hk : key ≠ "") :
    generate_chat_stream_with_session (some key) ⟨some sid, some prompt, sp⟩ o st =
      match o with
      | .failure ds msg =>
          ⟨deltaEvents ds ++ [StreamEvent.error ("LLM Error: " ++ msg)],
           snapshotStore (pyStrip (sp.getD "")) sid st,
           some (outgoingMessages (pyStrip (sp.getD "")) sid prompt st)⟩
      | .success ds =>
          ⟨deltaEvents ds ++ [StreamEvent.final (deltaConcat ds)],
           successStore (pyStrip (sp.getD "")) sid prompt (deltaConcat ds) st,
           some (outgoingMessages (pyStrip (sp.getD "")) sid prompt st)⟩ := by
  cases o with
  | failure ds msg =>
    simp only [generate_chat_stream_with_session, Option.getD_some, if_neg hsid,
      if_neg hp, if_neg hk, snapshotStore, outgoingMessages]
  | success ds =>
    simp only [generate_chat_stream_with_session, Option.getD_some, if_neg hsid,
      if_neg hp, if_neg hk, snapshotStore, outgoingMessages, successStore]

/-! ### System-count lemmas -/

theorem systemCount_of_no_system (l : List Message) (h : ∀ m ∈ l, m.role ≠ Role.system) :
    systemCount l = 0 := by
  induction l with
  | nil => rfl
  | cons m rest ih =>
    have hm : m.role ≠ Role.system := h m (List.mem_cons_self _ _)
    simp only [systemCount, List.filter_cons]
    rw [if_neg (by simp [hm])]
    exact ih fun x hx => h x (List.mem_cons_of_mem _ hx)

theorem systemCount_head_system (m : Message) (rest : List Message)
    (hm : m.role = Role.system) (hrest : ∀ x ∈ rest, x.role ≠ Role.system) :
    systemCount (m :: rest) = 1 := by
  simp only [systemCount, List.filter_cons]
  rw [if_pos (by simp [hm])]
  have : systemCount rest = 0 := systemCount_of_no_system rest hrest
  simp only [systemCount] at this
  simp [this]

theorem systemCount_zero_iff (l : List Message) (hOK : transcriptOK l) :
    systemCount l = 0 ↔ headIsSystem l = false := by
  cases l with
  | nil => simp [systemCount, headIsSystem]
  | cons m rest =>
    by_cases hm : m.role = Role.system
    · rw [systemCount_head_system m rest hm (by simpa [transcriptOK] using hOK)]
      simp [headIsSystem, hm]
    · rw [systemCount_of_no_system (m :: rest) ?_]
      · simp [headIsSystem, hm]
      · intro x hx
        rcases List.mem_cons.1 hx with h2 | h2
        · subst h2; exact hm
        · exact hOK x h2

/-! ### Event-shape lemma: every generator run is chunks then one terminal -/

theorem events_shape (key : Option String) (p : ChatPayload) (o : StreamOutcome) (st : Store) :
    ∃ t : StreamEvent, t.isFinal = true ∧
      ((generate_chat_stream_with_session key p o st).events = [t] ∨
       (generate_chat_stream_with_session key p o st).events =
         deltaEvents (outcomeDeltas o) ++ [t]) := by
  by_cases h1 : p.session_id.getD "" = ""
  · refine ⟨StreamEvent.error "session_id is required for backend history", rfl, Or.inl ?_⟩
    simp [generate_chat_stream_with_session, h1]
  · by_cases h2 : p.prompt.getD "" = ""
    · refine ⟨StreamEvent.error "Prompt is required", rfl, Or.inl ?_⟩
      simp [generate_chat_stream_with_session, h1, h2]
    · by_cases h3 : key.getD "" = ""
      · refine ⟨StreamEvent.error "GROQ_API_KEY not configured on server.", rfl, Or.inl ?_⟩
        simp [generate_chat_stream_with_session, h1, h2, h3]
      · cases o with
        | failure ds msg =>
          refine ⟨StreamEvent.error ("LLM Error: " ++ msg), rfl, Or.inr ?_⟩
          simp [generate_chat_stream_with_session, h1, h2, h3, outcomeDeltas]
        | success ds =>
          refine ⟨StreamEvent.final (deltaConcat ds), rfl, Or.inr ?_⟩
          simp [generate_chat_stream_with_session, h1, h2, h3, outcomeDeltas]

/-! ### Invariant preservation -/

theorem transcriptOK_getD (st : Store) (sid : String) (hst : storeOK st) :
    transcriptOK ((st.get sid).getD []) := by
  cases hg : st.get sid with
  | none => exact transcriptOK_nil
  | some v => simpa using storeOK_get st sid v hst hg

theorem storeOK_snapshotStore (s sid : String) (st : Store) (hst : storeOK st) :
    storeOK (snapshotStore s sid st) := by
  unfold snapshotStore
  by_cases h : (st.get sid).isSome
  · rw [if_pos h]
    exact storeOK_set _ _ _ hst
      (transcriptOK_systemPhase _ _ (transcriptOK_getD st sid hst))
  · rw [if_neg h]
    exact hst

theorem storeOK_successStore (s sid prompt full : String) (st : Store) (hst : storeOK st) :
    storeOK (successStore s sid prompt full st) := by
  unfold successStore
  have h2 : storeOK (init_session_history sid (snapshotStore s sid st)) :=
    storeOK_init sid _ (storeOK_snapshotStore s sid st hst)
  exact storeOK_set _ _ _ h2 (transcriptOK_commit _ _ _ _ (transcriptOK_getD _ _ h2))

theorem gen_store_cases (key : Option String) (p : ChatPayload) (o : StreamOutcome)
    (st : Store) :
    (generate_chat_stream_with_session key p o st).store = st ∨
    (generate_chat_stream_with_session key p o st).store =
      snapshotStore (pyStrip (p.system_prompt.getD "")) (p.session_id.getD "") st ∨
    ∃ ds, o = StreamOutcome.success ds ∧
      (generate_chat_stream_with_session key p o st).store =
        successStore (pyStrip (p.system_prompt.getD "")) (p.session_id.getD "")
          (p.prompt.getD "") (deltaConcat ds) st := by
  by_cases h1 : p.session_id.getD "" = ""
  · exact Or.inl (by simp [generate_chat_stream_with_session, h1])
  · by_cases h2 : p.prompt.getD "" = ""
    · exact Or.inl (by simp [generate_chat_stream_with_session, h1, h2])
    · by_cases h3 : key.getD "" = ""
      · exact Or.inl (by simp [generate_chat_stream_with_session, h1, h2, h3])
      · cases o with
        | failure ds msg =>
          refine Or.inr (Or.inl ?_)
          simp only [generate_chat_stream_with_session, if_neg h1, if_neg h2, if_neg h3,
            snapshotStore]
        | success ds =>
          refine Or.inr (Or.inr ⟨ds, rfl, ?_⟩)
          simp only [generate_chat_stream_with_session, if_neg h1, if_neg h2, if_neg h3,
            successStore, snapshotStore]

theorem storeOK_gen (key : Option String) (p : ChatPayload) (o : StreamOutcome)
    (st : Store) (hst : storeOK st) :
    storeOK (generate_chat_stream_with_session key p o st).store := by
  rcases gen_store_cases key p o st with h | h | ⟨ds, _, h⟩ <;> rw [h]
  · exact hst
  · exact storeOK_snapshotStore _ _ _ hst
  · exact storeOK_successStore _ _ _ _ _ hst

theorem storeOK_chat_route (key : Option String) (p : ChatPayload) (o : StreamOutcome)
    (st : Store) (hst : storeOK st) :
    storeOK (chat_route_post key p o st).store := by
  unfold chat_route_post
  by_cases h : (p.session_id.getD "" != "") = true
  · rw [if_pos h]
    exact storeOK_gen _ _ _ _ (storeOK_init _ _ hst)
  · rw [if_neg h]
    exact storeOK_gen _ _ _ _ hst

theorem storeOK_clear (sid? : Option String) (st : Store) (hst : storeOK st) :
    storeOK (clear_backend_history_route sid? st).1 := by
  unfold clear_backend_history_route
  by_cases h : sid?.getD "" = ""
  · rw [if_pos h]
    exact hst
  · rw [if_neg h]
    cases hg : st.get (sid?.getD "") with
    | some v =>
      simp only [hg]
      exact storeOK_set st _ [] hst transcriptOK_nil
    | none =>
      simp only [hg]
      exact storeOK_init _ st hst

/-! ### Specialized run lemmas and store views -/

theorem gen_run_success (key sid prompt : String) (sp : Option String) (ds : List String)
    (st : Store) (hsid : sid ≠ "") (hp : prompt ≠ "") (hk : key ≠ "") :
    generate_chat_stream_with_session (some key) ⟨some sid, some prompt, sp⟩
        (StreamOutcome.success ds) st =
      ⟨deltaEvents ds ++ [StreamEvent.final (deltaConcat ds)],
       successStore (pyStrip (sp.getD "")) sid prompt (deltaConcat ds) st,
       some (outgoingMessages (pyStrip (sp.getD "")) sid prompt st)⟩ :=
  gen_valid_run key sid prompt sp (StreamOutcome.success ds) st hsid hp hk

theorem gen_run_failure (key sid prompt : String) (sp : Option String) (ds : List String)
    (msg : String) (st : Store) (hsid : sid ≠ "") (hp : prompt ≠ "") (hk : key ≠ "") :
    generate_chat_stream_with_session (some key) ⟨some sid, some prompt, sp⟩
        (StreamOutcome.failure ds msg) st =
      ⟨deltaEvents ds ++ [StreamEvent.error ("LLM Error: " ++ msg)],
       snapshotStore (pyStrip (sp.getD "")) sid st,
       some (outgoingMessages (pyStrip (sp.getD "")) sid prompt st)⟩ :=
  gen_valid_run key sid prompt sp (StreamOutcome.failure ds msg) st hsid hp hk

theorem gen_sid_missing (key : Option String) (p : ChatPayload) (o : StreamOutcome)
    (st : Store) (h1 : p.session_id.getD "" = "") :
    generate_chat_stream_with_session key p o st =
      ⟨[StreamEvent.error "session_id is required for backend history"], st, none⟩ := by
  simp [generate_chat_stream_with_session, h1]

theorem gen_prompt_missing (key : Option String) (p : ChatPayload) (o : StreamOutcome)
    (st : Store) (h1 : p.session_id.getD "" ≠ "") (h2 : p.prompt.getD "" = "") :
    generate_chat_stream_with_session key p o st =
      ⟨[StreamEvent.error "Prompt is required"], st, none⟩ := by
  simp [generate_chat_stream_with_session, h1, h2]

theorem systemPhase_nil_snd (s : String) : (systemPhase s []).2 = [] := by
  unfold systemPhase
  by_cases hs : s = "" <;> simp [hs]

theorem snapshotStore_get_self (s sid : String) (st : Store) :
    ((snapshotStore s sid st).get sid).getD [] =
      (systemPhase s ((st.get sid).getD [])).2 := by
  unfold snapshotStore
  cases hg : st.get sid with
  | none => simp [hg, systemPhase_nil_snd]
  | some v => simp [hg, Store.get_set_self]

theorem snapshotStore_get_ne (s sid k : String) (st : Store) (h : k ≠ sid) :
    (snapshotStore s sid st).get k = st.get k := by
  unfold snapshotStore
  by_cases hg : (st.get sid).isSome
  · rw [if_pos hg]
    exact Store.get_set_ne st sid k _ h
  · rw [if_neg hg]

theorem snapshotStore_empty_sys (sid : String) (st : Store) :
    snapshotStore "" sid st = st := by
  unfold snapshotStore
  cases hg : st.get sid with
  | none => simp [hg]
  | some v =>
    simp only [hg, Option.isSome_some, Option.getD_some, if_pos rfl]
    rw [systemPhase_eq, if_pos rfl]
    exact Store.set_get_eq st sid v hg

theorem successStore_get_self (s sid prompt full : String) (st : Store) :
    (successStore s sid prompt full st).get sid =
      some (commit_exchange s prompt full
        (((init_session_history sid (snapshotStore s sid st)).get sid).getD [])) := by
  unfold successStore
  exact Store.get_set_self _ _ _

theorem init_snapshot_get (s sid : String) (st : Store) :
    ((init_session_history sid (snapshotStore s sid st)).get sid).getD [] =
      (systemPhase s ((st.get sid).getD [])).2 := by
  cases hg : (snapshotStore s sid st).get sid with
  | some v =>
    rw [init_session_history_of_some sid _ v hg]
    exact snapshotStore_get_self s sid st
  | none =>
    rw [init_session_history_of_none sid _ hg, Store.get_set_self]
    have hs := snapshotStore_get_self s sid st
    rw [hg] at hs
    simpa using hs.symm

theorem upsertSystem_length (s : String) (h : Transcript) :
    (upsertSystem s h).length =
      h.length + (if s ≠ "" ∧ headIsSystem h = false then 1 else 0) := by
  rw [upsertSystem_eq]
  by_cases hs : s = ""
  · simp [hs]
  · by_cases hh : headIsSystem h
    · cases h with
      | nil => simp [headIsSystem] at hh
      | cons m rest => simp [hs, hh]
    · simp [hs, hh]

theorem headIsSystem_of_roles (l₁ l₂ : Transcript)
    (h : l₁.map Message.role = l₂.map Message.role) :
    headIsSystem l₁ = headIsSystem l₂ := by
  cases l₁ with
  | nil =>
    cases l₂ with
    | nil => rfl
    | cons b bs => simp at h
  | cons a as =>
    cases l₂ with
    | nil => simp at h
    | cons b bs =>
      simp only [List.map_cons, List.cons.injEq] at h
      simp [headIsSystem, h.1]

theorem chunkText_of_final (t : StreamEvent) (ht : t.isFinal = true) : chunkText t = none := by
  cases t with
  | chunk s => simp [StreamEvent.isFinal] at ht
  | final s => rfl
  | error s => rfl

theorem filter_final_map_chunk (l : List String) :
    (l.map StreamEvent.chunk).filter (fun e => e.isFinal) = [] := by
  induction l with
  | nil => rfl
  | cons d rest ih => simp [List.filter_cons, StreamEvent.isFinal, ih]

theorem deltaEvents_filter_final (ds : List String) :
    (deltaEvents ds).filter (fun e => e.isFinal) = [] :=
  filter_final_map_chunk _

theorem clear_store_eq (sid : String) (st : Store) (h : sid ≠ "") :
    (clear_backend_history_route (some sid) st).1 = st.set sid [] := by
  unfold clear_backend_history_route
  simp only [Option.getD_some]
  rw [if_neg h]
  cases hg : st.get sid with
  | some v => simp only [hg]
  | none =>
    simp only [hg]
    exact init_session_history_of_none sid st hg

theorem clear_result_success (sid : String) (st : Store) (h : sid ≠ "") :
    ((clear_backend_history_route (some sid) st).2).isSuccess = true := by
  unfold clear_backend_history_route
  simp only [Option.getD_some]
  rw [if_neg h]
  cases hg : st.get sid with
  | some v =>
    simp only [hg]
    rfl
  | none =>
    simp only [hg]
    rfl

/-! ## Claim theorems -/

/-- C2: every store reachable through the HTTP surface (initialize, clear,
and the chat commit, including the snapshot-phase aliasing write) keeps
every session transcript with at most one system-role message, and when
present it is the first element; order is insertion order since
transcripts are lists mutated only by head upsert and tail append. -/
theorem C2_transcript_invariant (st : Store) (h : Reachable st) : storeOK st := by
  induction h with
  | empty =>
    intro kv hkv
    simp at hkv
  | create sid st _ ih => exact storeOK_init sid st ih
  | ensure sid st _ ih => exact storeOK_init sid st ih
  | clear sid? st _ ih => exact storeOK_clear sid? st ih
  | chat key p o st _ ih => exact storeOK_chat_route key p o st ih

/-- Witness for C2 at a concrete reachable store: empty store, then one
successful chat request. -/
theorem C2_transcript_invariant_witness :
    storeOK (chat_route_post (some "k") ⟨some "s", some "hi", some "be terse"⟩
      (StreamOutcome.success ["Hel", "lo"]) []).store :=
  C2_transcript_invariant _
    (Reachable.chat (some "k") ⟨some "s", some "hi", some "be terse"⟩
      (StreamOutcome.success ["Hel", "lo"]) [] Reachable.empty)

/-- C4: every generator run (validation failure, mid-stream failure, or
success) emits exactly one `is_final` event, it is the last event, and the
non-final chunk texts are the collaborator's non-empty deltas in
production order (empty when no LLM call happened). -/
theorem C4_terminal_event_exactly_once (key : Option String) (p : ChatPayload)
    (o : StreamOutcome) (st : Store) :
    ((generate_chat_stream_with_session key p o st).events.filter
        (fun e => e.isFinal)).length = 1 ∧
    (∃ t, (generate_chat_stream_with_session key p o st).events.getLast? = some t ∧
      t.isFinal = true) ∧
    ((generate_chat_stream_with_session key p o st).events.filterMap chunkText = [] ∨
     (generate_chat_stream_with_session key p o st).events.filterMap chunkText =
       (outcomeDeltas o).filter (fun d => d != "")) := by
  obtain ⟨t, ht, hcase⟩ := events_shape key p o st
  have hct := chunkText_of_final t ht
  rcases hcase with h | h <;> rw [h]
  · refine ⟨by simp [List.filter_cons, ht], ⟨t, by simp, ht⟩, Or.inl ?_⟩
    simp [List.filterMap, hct]
  · refine ⟨?_, ⟨t, List.getLast?_concat _, ht⟩, Or.inr ?_⟩
    · rw [List.filter_append, deltaEvents_filter_final]
      simp [List.filter_cons, ht]
    · rw [List.filterMap_append, deltaEvents_chunkTexts]
      simp [List.filterMap, hct]

/-- C8: clearing a session twice leaves exactly the store produced by
clearing it once — the session maps to the empty transcript (created if it
was unknown, never deleted) — and both calls answer with status success. -/
theorem C8_clear_idempotent (sid : String) (st : Store) (h : sid ≠ "") :
    (clear_backend_history_route (some sid)
        (clear_backend_history_route (some sid) st).1).1 =
      (clear_backend_history_route (some sid) st).1 ∧
    ((clear_backend_history_route (some sid) st).1).get sid = some [] ∧
    ((clear_backend_history_route (some sid) st).2).isSuccess = true ∧
    ((clear_backend_history_route (some sid)
        (clear_backend_history_route (some sid) st).1).2).isSuccess = true := by
  refine ⟨?_, ?_, clear_result_success sid st h, clear_result_success sid _ h⟩
  · rw [clear_store_eq sid st h, clear_store_eq sid _ h]
    exact Store.set_set_self st sid [] []
  · rw [clear_store_eq sid st h]
    exact Store.get_set_self st sid []

/-- Witness for C8 on a concrete store holding one non-empty session. -/
theorem C8_clear_idempotent_witness :
    ("s" : String) ≠ "" ∧
    ((clear_backend_history_route (some "s")
        (clear_backend_history_route (some "s") [("s", [⟨Role.user, "x"⟩])]).1).1 =
      (clear_backend_history_route (some "s") [("s", [⟨Role.user, "x"⟩])]).1 ∧
    ((clear_backend_history_route (some "s") [("s", [⟨Role.user, "x"⟩])]).1).get "s" =
      some [] ∧
    ((clear_backend_history_route (some "s") [("s", [⟨Role.user, "x"⟩])]).2).isSuccess =
      true ∧
    ((clear_backend_history_route (some "s")
        (clear_backend_history_route (some "s") [("s", [⟨Role.user, "x"⟩])]).1).2).isSuccess =
      true) :=
  ⟨by decide, C8_clear_idempotent "s" [("s", [⟨Role.user, "x"⟩])] (by decide)⟩

/-- C6 counterexample: the missing-session-id error message is
"session_id is required for backend history", not the claimed
"session_id is required". -/
theorem C6_counterexample :
    (generate_chat_stream_with_session (some "k") ⟨none, some "hi", none⟩
        (StreamOutcome.success []) []).events ≠
      [StreamEvent.error "session_id is required"] := by decide

/-- C6 amended: an empty or missing session_id yields exactly the single
terminal error event with message "session_id is required for backend
history"; with a non-empty session_id, an empty or missing prompt yields
exactly the single terminal error event "Prompt is required"; in both
cases the store is untouched and no LLM call is made. -/
theorem C6_validation_terminal_errors :
    (∀ (key : Option String) (p : ChatPayload) (o : StreamOutcome) (st : Store),
      p.session_id.getD "" = "" →
      generate_chat_stream_with_session key p o st =
        ⟨[StreamEvent.error "session_id is required for backend history"], st, none⟩) ∧
    (∀ (key : Option String) (p : ChatPayload) (o : StreamOutcome) (st : Store),
      p.session_id.getD "" ≠ "" → p.prompt.getD "" = "" →
      generate_chat_stream_with_session key p o st =
        ⟨[StreamEvent.error "Prompt is required"], st, none⟩) :=
  ⟨fun key p o st h1 => gen_sid_missing key p o st h1,
   fun key p o st h1 h2 => gen_prompt_missing key p o st h1 h2⟩

/-- Witness for C6 at concrete requests exercising both validation errors. -/
theorem C6_validation_terminal_errors_witness :
    ((⟨none, some "hi", none⟩ : ChatPayload).session_id.getD "" = "" ∧
     generate_chat_stream_with_session (some "k") ⟨none, some "hi", none⟩
        (StreamOutcome.success ["x"]) [] =
      ⟨[StreamEvent.error "session_id is required for backend history"], [], none⟩) ∧
    ((⟨some "s", none, none⟩ : ChatPayload).session_id.getD "" ≠ "" ∧
     (⟨some "s", none, none⟩ : ChatPayload).prompt.getD "" = "" ∧
     generate_chat_stream_with_session (some "k") ⟨some "s", none, none⟩
        (StreamOutcome.success ["x"]) [] =
      ⟨[StreamEvent.error "Prompt is required"], [], none⟩) :=
  ⟨⟨by decide,
    C6_validation_terminal_errors.1 (some "k") ⟨none, some "hi", none⟩
      (StreamOutcome.success ["x"]) [] (by decide)⟩,
   ⟨by decide, by decide,
    C6_validation_terminal_errors.2 (some "k") ⟨some "s", none, none⟩
      (StreamOutcome.success ["x"]) [] (by decide) (by decide)⟩⟩

/-- C1 counterexample: session "s" stores the single system message "A";
a request with system_prompt "B" whose stream raises before any delta
leaves the stored transcript changed — the snapshot's shallow copy aliases
the stored head dict, so the system content is already "B". -/
theorem C1_counterexample :
    (generate_chat_stream_with_session (some "k") ⟨some "s", some "hi", some "B"⟩
        (StreamOutcome.failure [] "boom") [("s", [⟨Role.system, "A"⟩])]).store ≠
      [("s", [⟨Role.system, "A"⟩])] := by decide

/-- C1 amended: when the stream raises after zero or more deltas, the
request ends with exactly one terminal error event and no user or
assistant message is persisted (roles and the whole tail of the stored
transcript are unchanged, and other sessions are untouched); however the
stored transcript is not byte-for-byte equal in general: a supplied
non-empty system prompt differing from the stored system message has
already been written into its content during the snapshot phase, because
`list(...)` is a shallow copy whose head dict is shared with the store. -/
theorem C1_failure_discards_exchange (key sid prompt : String) (sp : Option String)
    (ds : List String) (msg : String) (st : Store)
    (hsid : sid ≠ "") (hp : prompt ≠ "") (hk : key ≠ "") :
    (generate_chat_stream_with_session (some key) ⟨some sid, some prompt, sp⟩
        (StreamOutcome.failure ds msg) st).events =
      deltaEvents ds ++ [StreamEvent.error ("LLM Error: " ++ msg)] ∧
    (generate_chat_stream_with_session (some key) ⟨some sid, some prompt, sp⟩
        (StreamOutcome.failure ds msg) st).store =
      snapshotStore (pyStrip (sp.getD "")) sid st ∧
    (((snapshotStore (pyStrip (sp.getD "")) sid st).get sid).getD []).tail =
      ((st.get sid).getD []).tail ∧
    (((snapshotStore (pyStrip (sp.getD "")) sid st).get sid).getD []).map Message.role =
      ((st.get sid).getD []).map Message.role ∧
    (∀ k, k ≠ sid → (snapshotStore (pyStrip (sp.getD "")) sid st).get k = st.get k) := by
  rw [gen_run_failure key sid prompt sp ds msg st hsid hp hk]
  refine ⟨rfl, rfl, ?_, ?_, fun k hkne => snapshotStore_get_ne _ sid k st hkne⟩
  · rw [snapshotStore_get_self, systemPhase_snd_tail]
  · rw [snapshotStore_get_self, systemPhase_snd_roles]

/-- Witness for C1's amended statement at the counterexample's input. -/
theorem C1_failure_discards_exchange_witness :
    ("k" : String) ≠ "" ∧ ("hi" : String) ≠ "" ∧ ("s" : String) ≠ "" ∧
    ((generate_chat_stream_with_session (some "k") ⟨some "s", some "hi", some "B"⟩
        (StreamOutcome.failure [] "boom") [("s", [⟨Role.system, "A"⟩])]).events =
      deltaEvents [] ++ [StreamEvent.error ("LLM Error: " ++ "boom")] ∧
    (generate_chat_stream_with_session (some "k") ⟨some "s", some "hi", some "B"⟩
        (StreamOutcome.failure [] "boom") [("s", [⟨Role.system, "A"⟩])]).store =
      snapshotStore (pyStrip ((some "B").getD "")) "s" [("s", [⟨Role.system, "A"⟩])] ∧
    (((snapshotStore (pyStrip ((some "B").getD "")) "s"
        [("s", [⟨Role.system, "A"⟩])]).get "s").getD []).tail =
      ((Store.get [("s", [⟨Role.system, "A"⟩])] "s").getD []).tail ∧
    (((snapshotStore (pyStrip ((some "B").getD "")) "s"
        [("s", [⟨Role.system, "A"⟩])]).get "s").getD []).map Message.role =
      ((Store.get [("s", [⟨Role.system, "A"⟩])] "s").getD []).map Message.role ∧
    (∀ k, k ≠ "s" →
      (snapshotStore (pyStrip ((some "B").getD "")) "s"
        [("s", [⟨Role.system, "A"⟩])]).get k =
      Store.get [("s", [⟨Role.system, "A"⟩])] k)) :=
  ⟨by decide, by decide, by decide,
   C1_failure_discards_exchange "k" "s" "hi" (some "B") [] "boom"
     [("s", [⟨Role.system, "A"⟩])] (by decide) (by decide) (by decide)⟩

theorem systemPhase_empty (h : Transcript) : systemPhase "" h = ([], h) := by
  unfold systemPhase
  simp

theorem commit_exchange_empty_sys (u a : String) (h : Transcript) :
    commit_exchange "" u a h = h ++ [⟨Role.user, u⟩, ⟨Role.assistant, a⟩] := by
  unfold commit_exchange upsertSystem
  simp

theorem init_snapshot_get_empty (sid : String) (st : Store) :
    ((init_session_history sid (snapshotStore "" sid st)).get sid).getD [] =
      (st.get sid).getD [] := by
  rw [init_snapshot_get, systemPhase_empty]

/-- C5 counterexample: the collaborator yields the single empty delta "";
the code's `if delta_content:` guard drops it, so no non-final chunk event
is emitted although one delta was received. -/
theorem C5_counterexample :
    ((generate_chat_stream_with_session (some "k") ⟨some "s", some "hi", none⟩
        (StreamOutcome.success [""]) []).events.filter (fun e => !e.isFinal)).length ≠
      (outcomeDeltas (StreamOutcome.success [""])).length := by decide

/-- C5 amended: each non-empty delta is emitted as one non-final chunk
event in order (empty deltas are skipped and produce no event); the
terminal event's full_response is the in-order concatenation of all
deltas, and the committed assistant message equals that concatenation. -/
theorem C5_full_response_accumulation (key sid prompt : String) (sp : Option String)
    (ds : List String) (st : Store)
    (hsid : sid ≠ "") (hp : prompt ≠ "") (hk : key ≠ "") :
    (generate_chat_stream_with_session (some key) ⟨some sid, some prompt, sp⟩
        (StreamOutcome.success ds) st).events =
      (ds.filter (fun d => d != "")).map StreamEvent.chunk ++
        [StreamEvent.final (deltaConcat ds)] ∧
    deltaConcat ds = concatAll ds ∧
    (∃ pre, (generate_chat_stream_with_session (some key) ⟨some sid, some prompt, sp⟩
        (StreamOutcome.success ds) st).store.get sid =
      some (pre ++ [⟨Role.user, prompt⟩, ⟨Role.assistant, deltaConcat ds⟩])) := by
  rw [gen_run_success key sid prompt sp ds st hsid hp hk]
  refine ⟨rfl, deltaConcat_eq_concatAll ds, ?_⟩
  exact ⟨upsertSystem (pyStrip (sp.getD "")) (((init_session_history sid
      (snapshotStore (pyStrip (sp.getD "")) sid st)).get sid).getD []),
    successStore_get_self _ sid prompt _ st⟩

/-- Witness for C5's amended statement with a mix of empty and non-empty
deltas. -/
theorem C5_full_response_accumulation_witness :
    ("s" : String) ≠ "" ∧ ("hi" : String) ≠ "" ∧ ("k" : String) ≠ "" ∧
    ((generate_chat_stream_with_session (some "k") ⟨some "s", some "hi", none⟩
        (StreamOutcome.success ["Hel", "", "lo"]) []).events =
      ((["Hel", "", "lo"].filter (fun d => d != "")).map StreamEvent.chunk) ++
        [StreamEvent.final (deltaConcat ["Hel", "", "lo"])] ∧
    deltaConcat ["Hel", "", "lo"] = concatAll ["Hel", "", "lo"] ∧
    (∃ pre, (generate_chat_stream_with_session (some "k") ⟨some "s", some "hi", none⟩
        (StreamOutcome.success ["Hel", "", "lo"]) []).store.get "s" =
      some (pre ++ [⟨Role.user, "hi"⟩,
        ⟨Role.assistant, deltaConcat ["Hel", "", "lo"]⟩]))) :=
  ⟨by decide, by decide, by decide,
   C5_full_response_accumulation "k" "s" "hi" none ["Hel", "", "lo"] []
     (by decide) (by decide) (by decide)⟩

/-- C10: on POST /chat with a non-empty session id, the route initializes
the session before the generator's validation runs, so an unknown session
id with an empty prompt still creates an empty transcript entry even
though the request ends in the "Prompt is required" terminal error, with
no LLM call and no committed message. -/
theorem C10_session_created_before_validation (key : Option String) (sid : String)
    (pp sp : Option String) (o : StreamOutcome) (st : Store)
    (hsid : sid ≠ "") (hunknown : st.get sid = none) (hprompt : pp.getD "" = "") :
    (chat_route_post key ⟨some sid, pp, sp⟩ o st).store.get sid = some [] ∧
    (chat_route_post key ⟨some sid, pp, sp⟩ o st).events =
      [StreamEvent.error "Prompt is required"] ∧
    (chat_route_post key ⟨some sid, pp, sp⟩ o st).sentToLLM = none := by
  have hroute : chat_route_post key ⟨some sid, pp, sp⟩ o st =
      generate_chat_stream_with_session key ⟨some sid, pp, sp⟩ o
        (init_session_history sid st) := by
    unfold chat_route_post
    simp only [Option.getD_some]
    rw [if_pos (by simp [hsid])]
  rw [hroute, gen_prompt_missing key _ o _ (by simpa using hsid) hprompt]
  rw [init_session_history_of_none sid st hunknown]
  exact ⟨Store.get_set_self st sid [], rfl, rfl⟩

/-- Witness for C10: unknown session, empty prompt. -/
theorem C10_session_created_before_validation_witness :
    ("s" : String) ≠ "" ∧ Store.get [] "s" = none ∧
    ((none : Option String).getD "" = "") ∧
    ((chat_route_post (some "k") ⟨some "s", none, none⟩
        (StreamOutcome.success ["x"]) []).store.get "s" = some [] ∧
    (chat_route_post (some "k") ⟨some "s", none, none⟩
        (StreamOutcome.success ["x"]) []).events =
      [StreamEvent.error "Prompt is required"] ∧
    (chat_route_post (some "k") ⟨some "s", none, none⟩
        (StreamOutcome.success ["x"]) []).sentToLLM = none) :=
  ⟨by decide, by decide, by decide,
   C10_session_created_before_validation (some "k") "s" none none
     (StreamOutcome.success ["x"]) [] (by decide) (by decide) (by decide)⟩

/-- C9: the supplied system_prompt is stripped before use; when it is
absent, empty, or whitespace-only, nothing system-flavoured happens: the
outgoing LLM list is exactly the stored transcript plus the new user
message, a successful commit appends only the user and assistant messages
(any stored system message stays untouched at its position), and a failed
stream leaves the store entirely unchanged. -/
theorem C9_whitespace_system_prompt_ignored (key sid prompt msg : String)
    (sp : Option String) (ds : List String) (st : Store)
    (hsid : sid ≠ "") (hp : prompt ≠ "") (hk : key ≠ "")
    (hws : pyStrip (sp.getD "") = "")
    (hOK : transcriptOK ((st.get sid).getD [])) :
    (generate_chat_stream_with_session (some key) ⟨some sid, some prompt, sp⟩
        (StreamOutcome.success ds) st).sentToLLM =
      some (((st.get sid).getD []) ++ [⟨Role.user, prompt⟩]) ∧
    (generate_chat_stream_with_session (some key) ⟨some sid, some prompt, sp⟩
        (StreamOutcome.success ds) st).store.get sid =
      some (((st.get sid).getD []) ++
        [⟨Role.user, prompt⟩, ⟨Role.assistant, deltaConcat ds⟩]) ∧
    (generate_chat_stream_with_session (some key) ⟨some sid, some prompt, sp⟩
        (StreamOutcome.failure ds msg) st).store = st := by
  have hout : outgoingMessages "" sid prompt st =
      ((st.get sid).getD []) ++ [⟨Role.user, prompt⟩] := by
    unfold outgoingMessages
    rw [systemPhase_empty]
    exact congrArg (· ++ [⟨Role.user, prompt⟩]) (historyLoop_nil_acc _ hOK)
  refine ⟨?_, ?_, ?_⟩
  · rw [gen_run_success key sid prompt sp ds st hsid hp hk]
    simp only [hws]
    rw [hout]
  · rw [gen_run_success key sid prompt sp ds st hsid hp hk]
    simp only [hws]
    rw [successStore_get_self, init_snapshot_get_empty, commit_exchange_empty_sys]
  · rw [gen_run_failure key sid prompt sp ds msg st hsid hp hk]
    simp only [hws]
    exact snapshotStore_empty_sys sid st

/-- Witness for C9: whitespace-only system prompt over a transcript that
already holds a system message. -/
theorem C9_whitespace_system_prompt_ignored_witness :
    ("s" : String) ≠ "" ∧ ("hi" : String) ≠ "" ∧ ("k" : String) ≠ "" ∧
    pyStrip ((some "  \t " : Option String).getD "") = "" ∧
    transcriptOK ((Store.get [("s", [⟨Role.system, "S"⟩, ⟨Role.user, "u"⟩])] "s").getD []) ∧
    ((generate_chat_stream_with_session (some "k") ⟨some "s", some "hi", some "  \t "⟩
        (StreamOutcome.success ["a"]) [("s", [⟨Role.system, "S"⟩, ⟨Role.user, "u"⟩])]).sentToLLM =
      some (((Store.get [("s", [⟨Role.system, "S"⟩, ⟨Role.user, "u"⟩])] "s").getD []) ++
        [⟨Role.user, "hi"⟩]) ∧
    (generate_chat_stream_with_session (some "k") ⟨some "s", some "hi", some "  \t "⟩
        (StreamOutcome.success ["a"]) [("s", [⟨Role.system, "S"⟩, ⟨Role.user, "u"⟩])]).store.get "s" =
      some (((Store.get [("s", [⟨Role.system, "S"⟩, ⟨Role.user, "u"⟩])] "s").getD []) ++
        [⟨Role.user, "hi"⟩, ⟨Role.assistant, deltaConcat ["a"]⟩]) ∧
    (generate_chat_stream_with_session (some "k") ⟨some "s", some "hi", some "  \t "⟩
        (StreamOutcome.failure ["a"] "e") [("s", [⟨Role.system, "S"⟩, ⟨Role.user, "u"⟩])]).store =
      [("s", [⟨Role.system, "S"⟩, ⟨Role.user, "u"⟩])]) :=
  ⟨by decide, by decide, by decide, by decide, by decide,
   C9_whitespace_system_prompt_ignored "k" "s" "hi" "e" (some "  \t ") ["a"]
     [("s", [⟨Role.system, "S"⟩, ⟨Role.user, "u"⟩])]
     (by decide) (by decide) (by decide) (by decide) (by decide)⟩

/-- C7: a successful commit grows the session transcript by exactly 2 (the
user then the assistant message appended), plus exactly 1 more only when a
non-empty (stripped) system prompt is supplied and no system message was
stored before the request; replacing an existing system message changes
content in place and never adds length. -/
theorem C7_commit_growth (key sid prompt : String) (sp : Option String)
    (ds : List String) (st : Store)
    (hsid : sid ≠ "") (hp : prompt ≠ "") (hk : key ≠ "")
    (hOK : transcriptOK ((st.get sid).getD [])) :
    ∃ h2, (generate_chat_stream_with_session (some key) ⟨some sid, some prompt, sp⟩
        (StreamOutcome.success ds) st).store.get sid = some h2 ∧
      (∃ pre, h2 = pre ++ [⟨Role.user, prompt⟩, ⟨Role.assistant, deltaConcat ds⟩]) ∧
      h2.length = ((st.get sid).getD []).length + 2 +
        (if pyStrip (sp.getD "") ≠ "" ∧ systemCount ((st.get sid).getD []) = 0
         then 1 else 0) := by
  rw [gen_run_success key sid prompt sp ds st hsid hp hk]
  refine ⟨_, successStore_get_self (pyStrip (sp.getD "")) sid prompt (deltaConcat ds) st,
    ⟨_, rfl⟩, ?_⟩
  rw [init_snapshot_get]
  unfold commit_exchange
  rw [List.length_append, upsertSystem_length]
  have hroles := systemPhase_snd_roles (pyStrip (sp.getD "")) ((st.get sid).getD [])
  have hlen : (systemPhase (pyStrip (sp.getD "")) ((st.get sid).getD [])).2.length =
      ((st.get sid).getD []).length := by
    have h2 := congrArg List.length hroles
    simpa using h2
  have hhead : headIsSystem (systemPhase (pyStrip (sp.getD "")) ((st.get sid).getD [])).2 =
      headIsSystem ((st.get sid).getD []) :=
    headIsSystem_of_roles _ _ hroles
  rw [hlen, hhead]
  have hiff : (pyStrip (sp.getD "") ≠ "" ∧ headIsSystem ((st.get sid).getD []) = false) ↔
      (pyStrip (sp.getD "") ≠ "" ∧ systemCount ((st.get sid).getD []) = 0) := by
    constructor
    · rintro ⟨h1, h2⟩
      exact ⟨h1, (systemCount_zero_iff _ hOK).2 h2⟩
    · rintro ⟨h1, h2⟩
      exact ⟨h1, (systemCount_zero_iff _ hOK).1 h2⟩
  rw [if_congr hiff rfl rfl]
  simp only [List.length_cons, List.length_nil]
  omega

/-- Witness for C7 in both growth regimes: first insert of a system prompt
(+3) on an empty transcript. -/
theorem C7_commit_growth_witness :
    ("s" : String) ≠ "" ∧ ("hi" : String) ≠ "" ∧ ("k" : String) ≠ "" ∧
    transcriptOK ((Store.get [] "s").getD []) ∧
    ∃ h2, (generate_chat_stream_with_session (some "k") ⟨some "s", some "hi", some "sys"⟩
        (StreamOutcome.success ["a"]) []).store.get "s" = some h2 ∧
      (∃ pre, h2 = pre ++ [⟨Role.user, "hi"⟩, ⟨Role.assistant, deltaConcat ["a"]⟩]) ∧
      h2.length = ((Store.get [] "s").getD []).length + 2 +
        (if pyStrip ((some "sys" : Option String).getD "") ≠ "" ∧
            systemCount ((Store.get [] "s").getD []) = 0
         then 1 else 0) :=
  ⟨by decide, by decide, by decide, by decide,
   C7_commit_growth "k" "s" "hi" (some "sys") ["a"] []
     (by decide) (by decide) (by decide) (by decide)⟩

/-- C3: with a stored transcript headed by system content A (and no other
system message), a successful request supplying a different non-empty
system prompt B sends the LLM a message list whose single system element
sits at position 0 with content B, and commits a transcript whose element
0 is the system message with content B, with no second system message. -/
theorem C3_system_prompt_replacement (key sid prompt A B : String) (rest : Transcript)
    (ds : List String) (st : Store)
    (hsid : sid ≠ "") (hp : prompt ≠ "") (hk : key ≠ "")
    (hBs : pyStrip B = B) (hB : B ≠ "") (hAB : B ≠ A)
    (hget : st.get sid = some (⟨Role.system, A⟩ :: rest))
    (hrest : ∀ m ∈ rest, m.role ≠ Role.system) :
    (∃ out, (generate_chat_stream_with_session (some key) ⟨some sid, some prompt, some B⟩
        (StreamOutcome.success ds) st).sentToLLM = some out ∧
      out.head? = some ⟨Role.system, B⟩ ∧ systemCount out = 1) ∧
    (∃ h2, (generate_chat_stream_with_session (some key) ⟨some sid, some prompt, some B⟩
        (StreamOutcome.success ds) st).store.get sid = some h2 ∧
      h2.head? = some ⟨Role.system, B⟩ ∧ systemCount h2 = 1) := by
  rw [gen_run_success key sid prompt (some B) ds st hsid hp hk]
  simp only [Option.getD_some, hBs]
  have hPhase : systemPhase B (⟨Role.system, A⟩ :: rest) =
      ([⟨Role.system, B⟩], ⟨Role.system, B⟩ :: rest) := by
    rw [systemPhase_eq, if_neg hB, if_pos (by simp [headIsSystem]),
      if_neg (by simp [Ne.symm hAB])]
    simp
  have hOut : outgoingMessages B sid prompt st =
      ⟨Role.system, B⟩ :: (rest ++ [⟨Role.user, prompt⟩]) := by
    unfold outgoingMessages
    rw [hget]
    simp only [Option.getD_some]
    rw [hPhase]
    rw [historyLoop_head_system _ _ (by simp [headIsSystem])]
    rw [List.filter_cons, if_neg (by simp)]
    rw [filter_of_no_system rest hrest]
    simp
  have hTail : ∀ x ∈ rest ++ [(⟨Role.user, prompt⟩ : Message)], x.role ≠ Role.system := by
    intro x hx
    rcases List.mem_append.1 hx with hx | hx
    · exact hrest x hx
    · rcases List.mem_cons.1 hx with hx | hx
      · subst hx; simp
      · simp at hx
  have hist2eq : ((init_session_history sid (snapshotStore B sid st)).get sid).getD []
      = ⟨Role.system, B⟩ :: rest := by
    rw [init_snapshot_get, hget]
    simp only [Option.getD_some]
    rw [hPhase]
  have hUp : upsertSystem B (⟨Role.system, B⟩ :: rest) = ⟨Role.system, B⟩ :: rest := by
    rw [upsertSystem_eq, if_neg hB, if_pos (by simp [headIsSystem])]
    simp
  have hCommit : commit_exchange B prompt (deltaConcat ds)
      (((init_session_history sid (snapshotStore B sid st)).get sid).getD []) =
      ⟨Role.system, B⟩ :: (rest ++
        [⟨Role.user, prompt⟩, ⟨Role.assistant, deltaConcat ds⟩]) := by
    rw [hist2eq]
    unfold commit_exchange
    rw [hUp]
    simp
  have hTail2 : ∀ x ∈ rest ++ [(⟨Role.user, prompt⟩ : Message),
      ⟨Role.assistant, deltaConcat ds⟩], x.role ≠ Role.system := by
    intro x hx
    rcases List.mem_append.1 hx with hx | hx
    · exact hrest x hx
    · rcases List.mem_cons.1 hx with hx | hx
      · subst hx; simp
      · rcases List.mem_cons.1 hx with hx | hx
        · subst hx; simp
        · simp at hx
  constructor
  · refine ⟨outgoingMessages B sid prompt st, rfl, ?_, ?_⟩
    · rw [hOut]
      rfl
    · rw [hOut]
      exact systemCount_head_system _ _ rfl hTail
  · refine ⟨commit_exchange B prompt (deltaConcat ds)
        (((init_session_history sid (snapshotStore B sid st)).get sid).getD []),
      successStore_get_self B sid prompt (deltaConcat ds) st, ?_, ?_⟩
    · rw [hCommit]
      rfl
    · rw [hCommit]
      exact systemCount_head_system _ _ rfl hTail2

/-- Witness for C3: transcript `[system "A", user "u", assistant "x"]`,
new system prompt "B". -/
theorem C3_system_prompt_replacement_witness :
    ("s" : String) ≠ "" ∧ ("q" : String) ≠ "" ∧ ("k" : String) ≠ "" ∧
    pyStrip "B" = "B" ∧ ("B" : String) ≠ "" ∧ ("B" : String) ≠ "A" ∧
    Store.get [("s", [⟨Role.system, "A"⟩, ⟨Role.user, "u"⟩, ⟨Role.assistant, "x"⟩])] "s" =
      some (⟨Role.system, "A"⟩ :: [⟨Role.user, "u"⟩, ⟨Role.assistant, "x"⟩]) ∧
    (∀ m ∈ [(⟨Role.user, "u"⟩ : Message), ⟨Role.assistant, "x"⟩], m.role ≠ Role.system) ∧
    ((∃ out, (generate_chat_stream_with_session (some "k") ⟨some "s", some "q", some "B"⟩
        (StreamOutcome.success ["y"])
        [("s", [⟨Role.system, "A"⟩, ⟨Role.user, "u"⟩, ⟨Role.assistant, "x"⟩])]).sentToLLM =
          some out ∧
      out.head? = some ⟨Role.system, "B"⟩ ∧ systemCount out = 1) ∧
    (∃ h2, (generate_chat_stream_with_session (some "k") ⟨some "s", some "q", some "B"⟩
        (StreamOutcome.success ["y"])
        [("s", [⟨Role.system, "A"⟩, ⟨Role.user, "u"⟩, ⟨Role.assistant, "x"⟩])]).store.get "s" =
          some h2 ∧
      h2.head? = some ⟨Role.system, "B"⟩ ∧ systemCount h2 = 1)) :=
  ⟨by decide, by decide, by decide, by decide, by decide, by decide, by decide, by decide,
   C3_system_prompt_replacement "k" "s" "q" "A" "B"
     [⟨Role.user, "u"⟩, ⟨Role.assistant, "x"⟩] ["y"]
     [("s", [⟨Role.system, "A"⟩, ⟨Role.user, "u"⟩, ⟨Role.assistant, "x"⟩])]
     (by decide) (by decide) (by decide) (by decide) (by decide) (by decide)
     (by decide) (by decide)⟩

end Chatbot
